import Mathlib

/-!
Shallow embedding of telegram_backup.py (the export pipeline of the
Telegram chat backup tool) and verification of the frozen claims about it.

Conventions of the embedding:
* Python attribute access with a default (getattr with three arguments) is
  modelled by PyStrAttr: an attribute can be absent, present with value None,
  or present with a string value.
* Python truthiness: None and the empty string are falsy; a non-empty string
  is truthy; for integers 0 is falsy.
* strftime output for a message date is modelled as an opaque string carried
  by the message (the formatting itself is an external library call).
* The Telethon media objects are modelled with just the fields the code
  reads: photos carry a list of size variants, documents carry an optional
  mime type, an optional byte size and a list of attributes (each with a
  type name, used for substring checks, and an optional file_name).
-/

/-- A Python string-valued attribute slot: missing, present-but-None, or a string. -/
inductive PyStrAttr
  | absent
  | noneVal
  | strVal (s : String)
deriving DecidableEq, Repr

/-- A Python value that is either None or a string. -/
inductive PyVal
  | pyNone
  | pyStr (s : String)
deriving DecidableEq, Repr

/-- getattr(obj, attr, default): the default is returned only when the slot is absent. -/
def getattrD : PyStrAttr → PyVal → PyVal
  | PyStrAttr.absent, d => d
  | PyStrAttr.noneVal, _ => PyVal.pyNone
  | PyStrAttr.strVal s, _ => PyVal.pyStr s

/-- Python truthiness of a None-or-string value. -/
def pyTruthy : PyVal → Bool
  | PyVal.pyNone => false
  | PyVal.pyStr s => s ≠ ""

/-- Python `a or b` on None-or-string values. -/
def pyOr (a b : PyVal) : PyVal :=
  if pyTruthy a then a else b

/-- How an f-string renders a None-or-string value. -/
def pyRender : PyVal → String
  | PyVal.pyNone => "None"
  | PyVal.pyStr s => s

/-- How an f-string renders an optional string (None renders as "None"). -/
def pyShowOptStr : Option String → String
  | none => "None"
  | some s => s

/-- needle matches at the head of the haystack. -/
def subAt : List Char → List Char → Bool
  | [], _ => true
  | _ :: _, [] => false
  | n :: ns, h :: hs => n = h && subAt ns hs

/-- needle occurs contiguously in the haystack. -/
def hasSub (needle : List Char) : List Char → Bool
  | [] => needle.isEmpty
  | h :: hs => subAt needle (h :: hs) || hasSub needle hs

/-- Python `needle in hay` on strings. -/
def pyIn (needle hay : String) : Bool :=
  hasSub needle.toList hay.toList

/-- Index of the last dot in a character list, if any. -/
def lastDotIdx : List Char → Option Nat
  | [] => none
  | c :: rest =>
    match lastDotIdx rest with
    | some i => some (i + 1)
    | none => if c = '.' then some 0 else none

/-- Extension part of os.path.splitext for a separator-free file name:
the suffix from the last dot, unless every character before that dot is a dot. -/
def splitextExt (name : String) : String :=
  let cs := name.toList
  match lastDotIdx cs with
  | none => ""
  | some di => if (cs.take di).any (fun c => c ≠ '.') then String.mk (cs.drop di) else ""

/-- Digit grouping of a reversed digit list into blocks of three; the fuel is
an upper bound on the number of blocks, so with fuel at least the list length
the result is the full grouping. -/
def groupRevFuel : Nat → List Char → List Char
  | 0, ds => ds
  | fuel + 1, ds =>
    if ds.length ≤ 3 then ds
    else ds.take 3 ++ ',' :: groupRevFuel fuel (ds.drop 3)

/-- Digit grouping of a reversed digit list into blocks of three. -/
def groupRev (ds : List Char) : List Char :=
  groupRevFuel ds.length ds

/-- Python format spec with a comma, as in the source's size strings: decimal digits with thousands separators. -/
def formatComma (n : Nat) : String :=
  String.mk ((groupRev (toString n).toList.reverse).reverse)

/-- Python str.lower() for the ASCII strings involved here, character by
character. -/
def strToLower (s : String) : String :=
  String.mk (s.toList.map Char.toLower)

/-- Python s.startswith(pat): pat is an initial segment of s. -/
def strStartsWith (s pat : String) : Bool :=
  subAt pat.toList s.toList

/-- One resolution variant of a photo; the size attribute may be absent. -/
structure PhotoSize where
  size : Option Nat
deriving DecidableEq, Repr

/-- A Telethon photo object: the sizes attribute may be absent. -/
structure Photo where
  sizes : Option (List PhotoSize)
deriving DecidableEq, Repr

/-- One document attribute: its runtime type name and an optional file_name slot. -/
structure DocAttr where
  typeName : String
  file_name : Option String
deriving DecidableEq, Repr

/-- A Telethon document: optional mime type (None and absent are merged),
optional declared byte size, and its attribute list. -/
structure Document where
  mimeType : Option String
  size : Option Nat
  attributes : List DocAttr
deriving DecidableEq, Repr

/-- A message's media payload: photo variant, document variant, or any other
media type the code does not recognize specially. -/
inductive Media
  | photo (p : Photo)
  | document (d : Document)
  | otherMedia
deriving DecidableEq, Repr

/-- A message sender, with the two attribute slots the code reads via getattr. -/
structure Sender where
  username : PyStrAttr
  first_name : PyStrAttr
deriving DecidableEq, Repr

/-- A message from the stream: id, optional sender, optional formatted date,
text body (possibly empty) and optional media payload. -/
structure Message where
  id : Nat
  sender : Option Sender
  date : Option String
  text : String
  media : Option Media
deriving DecidableEq, Repr

/-- The attribute scan of get_media_type (source lines 42..49): first attribute
whose type name contains Audio or Voice gives audio, then Video gives video,
then Photo gives image; otherwise continue. -/
def scanAttrs : List DocAttr → Option String
  | [] => none
  | a :: rest =>
    if pyIn "Audio" a.typeName || pyIn "Voice" a.typeName then some "audio"
    else if pyIn "Video" a.typeName then some "video"
    else if pyIn "Photo" a.typeName then some "image"
    else scanAttrs rest

/-- get_media_type (source lines 16..54): classification of a message's media. -/
def get_media_type (m : Message) : Option String :=
  match m.media with
  | none => none
  | some (Media.photo _) => some "image"
  | some (Media.document d) =>
    let mimeRes : Option String :=
      match d.mimeType with
      | some mt =>
        if mt ≠ "" then
          let mime := strToLower mt
          if strStartsWith mime "image/" then some "image"
          else if strStartsWith mime "audio/" then some "audio"
          else if strStartsWith mime "video/" then some "video"
          else none
        else none
      | none => none
    match mimeRes with
    | some c => some c
    | none =>
      match scanAttrs d.attributes with
      | some c => some c
      | none => some "other"
  | some Media.otherMedia => some "other"

/-- get_media_size (source lines 57..76): declared size of a message's media. -/
def get_media_size (m : Message) : Nat :=
  match m.media with
  | none => 0
  | some (Media.document d) =>
    match d.size with
    | some s => s
    | none => 0
  | some (Media.photo p) =>
    match p.sizes with
    | some l =>
      match l.filterMap PhotoSize.size with
      | [] => 0
      | s :: rest => rest.foldl Nat.max s
    | none => 0
  | some Media.otherMedia => 0

/-- Spec-side signal of one type-hint attribute, following the claim's words:
an attribute signaling audio or voice maps to audio, video to video, photo to image. -/
def attrSignal (a : DocAttr) : Option String :=
  if pyIn "Audio" a.typeName || pyIn "Voice" a.typeName then some "audio"
  else if pyIn "Video" a.typeName then some "video"
  else if pyIn "Photo" a.typeName then some "image"
  else none

/-- Spec-side classification by the mime type's top-level token, following the
claim's words; an absent or empty mime string gives no class, and mime
matching is case-insensitive as usual for mime types. -/
def specMimeClass : Option String → Option String
  | none => none
  | some mt =>
    if mt = "" then none
    else
      let mime := strToLower mt
      if strStartsWith mime "image/" then some "image"
      else if strStartsWith mime "audio/" then some "audio"
      else if strStartsWith mime "video/" then some "video"
      else none

/-- Spec-side classifier, written from the claim's words: image for a photo
variant; for a document, the mime token's class, otherwise the class of the
first type-hint attribute with a signal, otherwise other; other for an
unrecognized variant; none when media is absent. -/
def specMediaClass (m : Message) : Option String :=
  match m.media with
  | none => none
  | some (Media.photo _) => some "image"
  | some (Media.document d) =>
    match specMimeClass d.mimeType with
    | some c => some c
    | none =>
      match d.attributes.findSome? attrSignal with
      | some c => some c
      | none => some "other"
  | some Media.otherMedia => some "other"

/-- Spec-side size, written from the claim's words: a document's declared size
field (0 if absent); for a photo the maximum among all declared resolution
variants' sizes (0 if none declared); 0 when media is absent or unrecognized. -/
def specMediaSize (m : Message) : Nat :=
  match m.media with
  | none => 0
  | some (Media.document d) => d.size.getD 0
  | some (Media.photo p) =>
    match p.sizes with
    | some l => (l.filterMap PhotoSize.size).foldr Nat.max 0
    | none => 0
  | some Media.otherMedia => 0

/-- Result of the filter block (source lines 167..178): the should_download
flag and the skip_reason it sets. -/
structure FilterResult where
  should_download : Bool
  skip_reason : Option String
deriving DecidableEq, Repr

/-- Python truthiness of an optional integer (None and 0 are falsy). -/
def pyTruthyOptNat : Option Nat → Bool
  | none => false
  | some n => n ≠ 0

/-- The filter block of download_chat (source lines 166..178): the type filter
runs first and sets the reason "filtered (<media_type>)", then the size filter
runs only when should_download is still true and media_max_size is truthy,
setting "too large (<size> bytes)" with comma-grouped digits. -/
def applyFilters (media_filter : String) (media_max_size : Option Nat)
    (media_type : Option String) (media_size : Nat) : FilterResult :=
  let r0 : FilterResult := { should_download := true, skip_reason := none }
  let r1 : FilterResult :=
    if media_filter ≠ "all" ∧ media_type ≠ some media_filter then
      { should_download := false,
        skip_reason := some ("filtered (" ++ (pyShowOptStr media_type ++ ")")) }
    else r0
  if r1.should_download then
    match media_max_size with
    | some mx =>
      if mx ≠ 0 ∧ mx < media_size then
        { should_download := false,
          skip_reason := some ("too large (" ++ (formatComma media_size ++ " bytes)")) }
      else r1
    | none => r1
  else r1

/-- Sender name computation (source lines 146..150): getattr(sender, username,
None) or getattr(sender, first_name, "Unknown"), rendered by the f-string;
"Unknown" when the message has no sender. -/
def senderName : Option Sender → String
  | none => "Unknown"
  | some s =>
    pyRender (pyOr (getattrD s.username PyVal.pyNone)
                   (getattrD s.first_name (PyVal.pyStr "Unknown")))

/-- Outcome of one download attempt by the external client. -/
inductive DlRes
  | ok
  | err (e : String)
deriving DecidableEq, Repr

/-- Observable event of the retry loop: one retrieval attempt, or a wait of
the given number of seconds. -/
inductive RetryEv
  | attempt
  | sleep (secs : Nat)
deriving DecidableEq, Repr

/-- Result of the retry loop of download_chat (source lines 185..244). -/
inductive RetryOutcome
  | downloaded
  | failed (lastErr : String)
  | noAttempt
deriving DecidableEq, Repr

/-- The while loop of source lines 189..244, with `rem` the number of
remaining allowed attempts (the caller passes rem = maxRetries - retryCount,
so the loop guard retry_count < max_retries is rem > 0). Each iteration makes
one attempt; on an error the retry counter grows and either the budget is
exhausted (failed with the last error) or a fixed 3-second sleep precedes the
next attempt. Also returns the trace of attempts and sleeps. -/
def retryGo (dl : Nat → DlRes) (maxRetries : Nat) : Nat → Nat → RetryOutcome × List RetryEv
  | 0, _ => (RetryOutcome.noAttempt, [])
  | rem + 1, retryCount =>
    match dl retryCount with
    | DlRes.ok => (RetryOutcome.downloaded, [RetryEv.attempt])
    | DlRes.err e =>
      if maxRetries ≤ retryCount + 1 then (RetryOutcome.failed e, [RetryEv.attempt])
      else
        let r := retryGo dl maxRetries rem (retryCount + 1)
        (r.1, RetryEv.attempt :: RetryEv.sleep 3 :: r.2)

/-- The retry loop started with retry_count = 0 (source line 187). -/
def retryLoop (dl : Nat → DlRes) (maxRetries : Nat) : RetryOutcome × List RetryEv :=
  retryGo dl maxRetries maxRetries 0

/-- Filename derivation inside the download branch (source lines 192..202):
msg_<id> with .jpg for a photo; for a document the extension of the first
attribute carrying a file_name (none appended when no attribute has one).
The computation is loop-invariant, so it is hoisted out of the retry loop. -/
def deriveFilename (id : Nat) (media : Media) : String :=
  let base := "msg_" ++ toString id
  match media with
  | Media.photo _ => base ++ ".jpg"
  | Media.document d =>
    match d.attributes.find? (fun a => a.file_name.isSome) with
    | some a => base ++ splitextExt (a.file_name.getD "")
    | none => base
  | Media.otherMedia => base

/-- The session counters of download_chat (source lines 132..136). -/
structure Counters where
  message_count : Nat
  media_count : Nat
  media_skipped : Nat
  media_filtered : Nat
  media_failed : Nat
deriving DecidableEq, Repr

/-- Counters plus the transcript lines written so far. -/
structure RunState where
  counters : Counters
  lines : List String
deriving DecidableEq, Repr

/-- State at the start of the run: all counters zero, empty transcript. -/
def initialState : RunState :=
  { counters := { message_count := 0, media_count := 0, media_skipped := 0,
                  media_filtered := 0, media_failed := 0 },
    lines := [] }

/-- The configuration download_chat receives for media handling. -/
structure BackupConfig where
  download_media : Bool
  media_filter : String
  media_max_size : Option Nat
deriving DecidableEq, Repr

/-- The shared "[<timestamp>] <<sender>> " head of every transcript line. -/
def lineHead (ts sn : String) : String :=
  "[" ++ ts ++ "] <" ++ sn ++ "> "

/-- A media annotation line: head followed by the bracketed payload. -/
def mediaLine (ts sn payload : String) : String :=
  lineHead ts sn ++ ("[MEDIA: " ++ (payload ++ "]"))

/-- Processing of one message by the loop body of download_chat (source lines
142..248): bump message_count, write the text line when the text is non-empty,
then handle media: when downloads are disabled note it and bump media_skipped;
when enabled run the filters, write the reason line and bump media_filtered on
rejection, otherwise run the retry loop and either bump media_count and write
the filename line, or bump media_failed and write the failure line. -/
def processMessage (cfg : BackupConfig) (st : RunState) (m : Message)
    (dl : Nat → DlRes) : RunState :=
  let c0 : Counters := { st.counters with message_count := st.counters.message_count + 1 }
  let sn := senderName m.sender
  let ts := m.date.getD ""
  let ls0 := if m.text ≠ "" then st.lines ++ [lineHead ts sn ++ m.text] else st.lines
  match m.media with
  | none => { counters := c0, lines := ls0 }
  | some med =>
    if cfg.download_media then
      let fr := applyFilters cfg.media_filter cfg.media_max_size
                  (get_media_type m) (get_media_size m)
      if fr.should_download = false then
        { counters := { c0 with media_filtered := c0.media_filtered + 1 },
          lines := ls0 ++ [mediaLine ts sn (pyShowOptStr fr.skip_reason)] }
      else
        match (retryLoop dl 3).1 with
        | RetryOutcome.downloaded =>
          { counters := { c0 with media_count := c0.media_count + 1 },
            lines := ls0 ++ [mediaLine ts sn (deriveFilename m.id med)] }
        | RetryOutcome.failed e =>
          { counters := { c0 with media_failed := c0.media_failed + 1 },
            lines := ls0 ++ [mediaLine ts sn ("Download failed - " ++ e)] }
        | RetryOutcome.noAttempt => { counters := c0, lines := ls0 }
    else
      { counters := { c0 with media_skipped := c0.media_skipped + 1 },
        lines := ls0 ++ [mediaLine ts sn "not downloaded"] }

/-- The whole message loop: fold processMessage over the stream, each message
paired with the attempt outcomes its downloads would see. -/
def runMessages (cfg : BackupConfig) (st : RunState) :
    List (Message × (Nat → DlRes)) → RunState
  | [] => st
  | (m, dl) :: rest => runMessages cfg (processMessage cfg st m dl) rest

/-- Number of messages in the stream whose media payload is non-null. -/
def mediaCount : List (Message × (Nat → DlRes)) → Nat
  | [] => 0
  | (m, _) :: rest => (if m.media.isSome then 1 else 0) + mediaCount rest

/-- The set of media filter values main accepts (source line 392). -/
def validMediaFilters : List String := ["image", "audio", "video", "other", "all"]

/-- Parsing of the --media-filter option value (source lines 391..395): the
value is lowercased, then checked for membership; none models sys.exit(1). -/
def parseMediaFilter (s : String) : Option String :=
  if validMediaFilters.contains (strToLower s) then some (strToLower s) else none

/-- Claim C2: when the configured type filter is not "all" and differs from the
item's classification, the filter decision is the type rejection with reason
"filtered (<classification>)", whatever the item's size and the configured max
size are (the right-hand side does not depend on them, so the size check is
never reached). -/
theorem filter_type_precedence (media_filter : String) (media_max_size : Option Nat)
    (c : String) (media_size : Nat)
    (hf : media_filter ≠ "all") (hc : c ≠ media_filter) :
    applyFilters media_filter media_max_size (some c) media_size =
      { should_download := false,
        skip_reason := some ("filtered (" ++ (c ++ ")")) } := by
  simp [applyFilters, hf, hc, pyShowOptStr]

/-- Witness for filter_type_precedence: a video item of 10,000,000 bytes under
an audio filter with a 5,000,000-byte cap is rejected by type, not by size. -/
theorem filter_type_precedence_witness :
    applyFilters "audio" (some 5000000) (some "video") 10000000 =
      { should_download := false, skip_reason := some "filtered (video)" } := by
  have h := filter_type_precedence "audio" (some 5000000) "video" 10000000
    (by decide) (by decide)
  exact h.trans (by decide)

/-- Claim C7: when the classification passes the type filter, a configured
(positive) max size strictly below the item's size gives the size rejection
with reason "too large (<size> bytes)"; otherwise, size equal to the max or no
configured max included, the item is accepted. -/
theorem filter_size_decision (media_filter : String) (media_max_size : Option Nat)
    (media_type : Option String) (media_size : Nat)
    (hpass : media_filter = "all" ∨ media_type = some media_filter)
    (hpos : ∀ mx, media_max_size = some mx → 0 < mx) :
    (∀ mx, media_max_size = some mx → mx < media_size →
      applyFilters media_filter media_max_size media_type media_size =
        { should_download := false,
          skip_reason := some ("too large (" ++ (formatComma media_size ++ " bytes)")) })
    ∧ ((media_max_size = none ∨ ∃ mx, media_max_size = some mx ∧ media_size ≤ mx) →
      applyFilters media_filter media_max_size media_type media_size =
        { should_download := true, skip_reason := none }) := by
  have hty : ¬ (media_filter ≠ "all" ∧ media_type ≠ some media_filter) := by
    rcases hpass with h | h
    · intro hcontra; exact hcontra.1 h
    · intro hcontra; exact hcontra.2 h
  constructor
  · intro mx hmx hlt
    have hne : mx ≠ 0 := by
      have := hpos mx hmx
      omega
    subst hmx
    simp [applyFilters, hty, hlt, hne]
  · intro hok
    rcases hok with hnone | ⟨mx, hmx, hle⟩
    · subst hnone; simp [applyFilters, hty]
    · subst hmx
      simp [applyFilters, hty]
      omega

/-- Witness for filter_size_decision: with filter "all" and max 5,000,000, a
10,000,000-byte item is rejected as too large, and a 5,000,000-byte item
(equal to the max) is accepted. -/
theorem filter_size_decision_witness :
    applyFilters "all" (some 5000000) (some "video") 10000000 =
      { should_download := false, skip_reason := some "too large (10,000,000 bytes)" }
    ∧ applyFilters "all" (some 5000000) (some "video") 5000000 =
      { should_download := true, skip_reason := none } := by
  constructor
  · have h := (filter_size_decision "all" (some 5000000) (some "video") 10000000
      (Or.inl rfl) (by intro mx hmx; cases hmx; decide)).1 5000000 rfl (by decide)
    exact h.trans (by decide)
  · exact (filter_size_decision "all" (some 5000000) (some "video") 5000000
      (Or.inl rfl) (by intro mx hmx; cases hmx; decide)).2 (Or.inr ⟨5000000, rfl, by decide⟩)

/-- Claim C9: the --media-filter value is lowercased before validation and use:
acceptance depends only on the lowercase form being one of the five valid
values, an accepted value is used in its lowercase form, and in particular
"IMAGE" is accepted and behaves as "image" (none models the exit-code-1
rejection path of main). -/
theorem media_filter_case_insensitive :
    (∀ s, (parseMediaFilter s).isSome = validMediaFilters.contains (strToLower s))
    ∧ (∀ s r, parseMediaFilter s = some r → r = strToLower s)
    ∧ parseMediaFilter "IMAGE" = some "image"
    ∧ parseMediaFilter "Audio" = some "audio"
    ∧ parseMediaFilter "document" = none := by
  refine ⟨?_, ?_, by decide, by decide, by decide⟩
  · intro s
    unfold parseMediaFilter
    split <;> simp_all
  · intro s r h
    unfold parseMediaFilter at h
    split at h
    · exact (Option.some.injEq _ _ ▸ h).symm
    · exact absurd h (by simp)

/-- Witness for media_filter_case_insensitive: its hypothesis-bearing conjunct
applied to the accepted value "IMAGE". -/
theorem media_filter_case_insensitive_witness :
    ("image" : String) = strToLower "IMAGE" := by
  have h := media_filter_case_insensitive.2.1 "IMAGE" "image" (by decide)
  exact h

/-- Claim C5 counterexample: a sender whose username and first_name attributes
are both present but None has no usable handle and no usable first name, yet
the transcript sender is the rendering "None", not "Unknown". -/
theorem sender_name_counterexample :
    senderName (some { username := PyStrAttr.noneVal, first_name := PyStrAttr.noneVal })
      ≠ "Unknown"
    ∧ senderName (some { username := PyStrAttr.noneVal, first_name := PyStrAttr.noneVal })
      = "None" := by
  constructor
  · decide
  · decide

/-- Claim C5 as amended: the sender name falls back handle, then first name,
then "Unknown", where "Unknown" is produced when the message has no sender or
when the sender lacks a first_name attribute; a first_name attribute that is
present is rendered as-is even when it is None (rendered "None") or empty. -/
theorem sender_name_fallback_amended :
    senderName none = "Unknown"
    ∧ (∀ u fn, u ≠ "" →
        senderName (some { username := PyStrAttr.strVal u, first_name := fn }) = u)
    ∧ (∀ ua f, pyTruthy (getattrD ua PyVal.pyNone) = false →
        senderName (some { username := ua, first_name := PyStrAttr.strVal f }) = f)
    ∧ (∀ ua, pyTruthy (getattrD ua PyVal.pyNone) = false →
        senderName (some { username := ua, first_name := PyStrAttr.absent }) = "Unknown")
    ∧ (∀ ua, pyTruthy (getattrD ua PyVal.pyNone) = false →
        senderName (some { username := ua, first_name := PyStrAttr.noneVal }) = "None") := by
  refine ⟨rfl, ?_, ?_, ?_, ?_⟩
  · intro u fn hu
    simp [senderName, getattrD, pyOr, pyTruthy, hu, pyRender]
  · intro ua f hf
    simp only [senderName, pyOr]
    rw [hf]
    simp [getattrD, pyRender]
  · intro ua hf
    simp only [senderName, pyOr]
    rw [hf]
    simp [getattrD, pyRender]
  · intro ua hf
    simp only [senderName, pyOr]
    rw [hf]
    simp [getattrD, pyRender]

/-- Witness for sender_name_fallback_amended: a usable handle wins, an absent
username with first name Alice gives Alice, and an empty-string username with
no first_name attribute gives "Unknown". -/
theorem sender_name_fallback_amended_witness :
    senderName (some { username := PyStrAttr.strVal "bob",
                       first_name := PyStrAttr.strVal "Bob" }) = "bob"
    ∧ senderName (some { username := PyStrAttr.absent,
                         first_name := PyStrAttr.strVal "Alice" }) = "Alice"
    ∧ senderName (some { username := PyStrAttr.strVal "",
                         first_name := PyStrAttr.absent }) = "Unknown" := by
  refine ⟨?_, ?_, ?_⟩
  · exact sender_name_fallback_amended.2.1 "bob" (PyStrAttr.strVal "Bob") (by decide)
  · exact sender_name_fallback_amended.2.2.1 PyStrAttr.absent "Alice" (by decide)
  · exact sender_name_fallback_amended.2.2.2.1 (PyStrAttr.strVal "") (by decide)

/-- Folding max to the left from a start value equals the start joined with
the fold of the rest. -/
theorem foldlMax (l : List Nat) : ∀ a, l.foldl Nat.max a = Nat.max a (l.foldr Nat.max 0) := by
  induction l with
  | nil => intro a; simp
  | cons c t ih => intro a; simp [List.foldl, List.foldr, ih, Nat.max_assoc]

/-- The attribute scan of the source returns the signal of the first
attribute that has one. -/
theorem scanAttrs_eq_findSome (l : List DocAttr) : scanAttrs l = l.findSome? attrSignal := by
  induction l with
  | nil => rfl
  | cons a rest ih =>
    simp only [scanAttrs, attrSignal, List.findSome?_cons]
    split_ifs <;> simp [ih]

/-- Claim C8: the reported media size agrees with the spec-side description:
a document's declared size field (0 if absent), a photo's maximum declared
resolution-variant size (0 if none declared), and 0 for absent or
unrecognized media. -/
theorem media_size_refines_spec (m : Message) : get_media_size m = specMediaSize m := by
  cases hm : m.media with
  | none => simp [get_media_size, specMediaSize, hm]
  | some med =>
    cases med with
    | document d =>
      cases hd : d.size with
      | none => simp [get_media_size, specMediaSize, hm, hd]
      | some s => simp [get_media_size, specMediaSize, hm, hd]
    | otherMedia => simp [get_media_size, specMediaSize, hm]
    | photo p =>
      cases hs : p.sizes with
      | none => simp [get_media_size, specMediaSize, hm, hs]
      | some l =>
        simp only [get_media_size, specMediaSize, hm, hs]
        cases hf : l.filterMap PhotoSize.size with
        | nil => simp
        | cons s rest => simp [foldlMax, List.foldr]

/-- Claim C4: the classifier agrees with the spec-side description (image for
photo variants; for documents the mime token's class, else the first type-hint
attribute's class, else other; other for unrecognized variants; none when
media is absent), and its result depends only on the media payload. -/
theorem media_classifier_refines_spec :
    (∀ m, get_media_type m = specMediaClass m)
    ∧ (∀ m₁ m₂, m₁.media = m₂.media → get_media_type m₁ = get_media_type m₂) := by
  constructor
  · intro m
    cases hm : m.media with
    | none => simp [get_media_type, specMediaClass, hm]
    | some med =>
      cases med with
      | photo p => simp [get_media_type, specMediaClass, hm]
      | otherMedia => simp [get_media_type, specMediaClass, hm]
      | document d =>
        simp only [get_media_type, specMediaClass, specMimeClass, hm]
        cases hmt : d.mimeType with
        | none => simp [scanAttrs_eq_findSome]
        | some mt =>
          by_cases he : mt = ""
          · subst he; simp [scanAttrs_eq_findSome]
          · simp [he, scanAttrs_eq_findSome]
  · intro m₁ m₂ h
    unfold get_media_type
    rw [h]

/-- Witness for media_classifier_refines_spec: two messages differing in id,
sender, date and text but with the same document payload classify alike, and
a sample evaluation: an application/pdf document with a video attribute
classifies as video. -/
theorem media_classifier_refines_spec_witness :
    get_media_type
      { id := 1, sender := none, date := none, text := "a",
        media := some (Media.document
          { mimeType := some "application/pdf", size := some 5,
            attributes := [{ typeName := "DocumentAttributeVideo", file_name := none }] }) }
    = get_media_type
      { id := 2, sender := some { username := PyStrAttr.absent, first_name := PyStrAttr.absent },
        date := some "2024-01-01 00:00:00", text := "",
        media := some (Media.document
          { mimeType := some "application/pdf", size := some 5,
            attributes := [{ typeName := "DocumentAttributeVideo", file_name := none }] }) }
    ∧ get_media_type
      { id := 1, sender := none, date := none, text := "a",
        media := some (Media.document
          { mimeType := some "application/pdf", size := some 5,
            attributes := [{ typeName := "DocumentAttributeVideo", file_name := none }] }) }
      = some "video" := by
  constructor
  · exact media_classifier_refines_spec.2 _ _ rfl
  · decide

/-- One loop iteration on an error with retry budget left: the attempt and a
3-second sleep precede whatever the rest of the loop does. -/
theorem retryGo_step_err (dl : Nat → DlRes) (maxR rem rc : Nat) (e : String)
    (hdl : dl rc = DlRes.err e) (hb : ¬ maxR ≤ rc + 1) :
    retryGo dl maxR (rem + 1) rc =
      ((retryGo dl maxR rem (rc + 1)).1,
       RetryEv.attempt :: RetryEv.sleep 3 :: (retryGo dl maxR rem (rc + 1)).2) := by
  simp [retryGo, hdl, hb]

/-- One loop iteration on an error with the budget exhausted: the loop ends in
the failed outcome carrying that error. -/
theorem retryGo_last_err (dl : Nat → DlRes) (maxR rem rc : Nat) (e : String)
    (hdl : dl rc = DlRes.err e) (hb : maxR ≤ rc + 1) :
    retryGo dl maxR (rem + 1) rc = (RetryOutcome.failed e, [RetryEv.attempt]) := by
  simp [retryGo, hdl, hb]

/-- As long as the remaining budget is positive and consistent with the retry
counter, the loop ends either downloaded or failed, never without an attempt. -/
theorem retryGo_cases (dl : Nat → DlRes) (maxR : Nat) :
    ∀ rem rc, rc + rem = maxR → 0 < rem →
      (retryGo dl maxR rem rc).1 = RetryOutcome.downloaded
      ∨ ∃ e, (retryGo dl maxR rem rc).1 = RetryOutcome.failed e := by
  intro rem
  induction rem with
  | zero => intro rc hsum h0; omega
  | succ n ih =>
    intro rc hsum h0
    cases hdl : dl rc with
    | ok => simp [retryGo, hdl]
    | err e =>
      by_cases hb : maxR ≤ rc + 1
      · exact Or.inr ⟨e, by simp [retryGo, hdl, hb]⟩
      · simp only [retryGo, hdl, if_neg hb]
        simpa using ih (rc + 1) (by omega) (by omega)

/-- With the source's budget of 3 attempts the loop always ends downloaded or
failed. -/
theorem retryLoop_cases (dl : Nat → DlRes) :
    (retryLoop dl 3).1 = RetryOutcome.downloaded
    ∨ ∃ e, (retryLoop dl 3).1 = RetryOutcome.failed e :=
  retryGo_cases dl 3 3 0 rfl (by omega)

/-- Claim C6: a message carrying media processed with downloads disabled adds
exactly one "[MEDIA: not downloaded]" line and increments media_skipped by
exactly one, leaving media_count, media_filtered and media_failed untouched. -/
theorem media_skipped_frame (cfg : BackupConfig) (st : RunState) (m : Message)
    (dl : Nat → DlRes) (med : Media)
    (hdm : cfg.download_media = false) (hm : m.media = some med) :
    processMessage cfg st m dl =
      { counters := { st.counters with
          message_count := st.counters.message_count + 1,
          media_skipped := st.counters.media_skipped + 1 },
        lines :=
          (if m.text ≠ "" then
            st.lines ++ [lineHead (m.date.getD "") (senderName m.sender) ++ m.text]
          else st.lines)
          ++ [mediaLine (m.date.getD "") (senderName m.sender) "not downloaded"] } := by
  simp [processMessage, hm, hdm]

/-- Witness for media_skipped_frame: a media-only photo message with downloads
disabled yields exactly the skipped line and counter. -/
theorem media_skipped_frame_witness :
    processMessage { download_media := false, media_filter := "all", media_max_size := none }
      initialState
      { id := 9, sender := none, date := some "2024-05-05 10:00:00", text := "",
        media := some (Media.photo { sizes := some [{ size := some 100 }] }) }
      (fun _ => DlRes.ok) =
      { counters := { message_count := 1, media_count := 0, media_skipped := 1,
                      media_filtered := 0, media_failed := 0 },
        lines := ["[2024-05-05 10:00:00] <Unknown> [MEDIA: not downloaded]"] } := by
  have h := media_skipped_frame
    { download_media := false, media_filter := "all", media_max_size := none }
    initialState
    { id := 9, sender := none, date := some "2024-05-05 10:00:00", text := "",
      media := some (Media.photo { sizes := some [{ size := some 100 }] }) }
    (fun _ => DlRes.ok)
    (Media.photo { sizes := some [{ size := some 100 }] })
    rfl rfl
  exact h.trans (by decide)

/-- Claim C3: for an accepted media item whose retrieval fails on every
attempt, exactly 3 attempts occur with a fixed 3-second sleep between
consecutive attempts, media_failed increments by exactly 1, exactly one
transcript line "[MEDIA: Download failed - <error>]" carrying the final
attempt's error is written, and the run continues with the next message. -/
theorem retry_exhaustion (cfg : BackupConfig) (st : RunState) (m : Message)
    (dl : Nat → DlRes) (med : Media) (e0 e1 e2 : String)
    (hdm : cfg.download_media = true) (hm : m.media = some med)
    (hpass : (applyFilters cfg.media_filter cfg.media_max_size
      (get_media_type m) (get_media_size m)).should_download = true)
    (h0 : dl 0 = DlRes.err e0) (h1 : dl 1 = DlRes.err e1) (h2 : dl 2 = DlRes.err e2) :
    retryLoop dl 3 =
      (RetryOutcome.failed e2,
       [RetryEv.attempt, RetryEv.sleep 3, RetryEv.attempt, RetryEv.sleep 3, RetryEv.attempt])
    ∧ processMessage cfg st m dl =
      { counters := { st.counters with
          message_count := st.counters.message_count + 1,
          media_failed := st.counters.media_failed + 1 },
        lines :=
          (if m.text ≠ "" then
            st.lines ++ [lineHead (m.date.getD "") (senderName m.sender) ++ m.text]
          else st.lines)
          ++ [mediaLine (m.date.getD "") (senderName m.sender)
                ("Download failed - " ++ e2)] }
    ∧ (∀ rest, runMessages cfg st ((m, dl) :: rest) =
        runMessages cfg (processMessage cfg st m dl) rest) := by
  have s2 : retryGo dl 3 1 2 = (RetryOutcome.failed e2, [RetryEv.attempt]) :=
    retryGo_last_err dl 3 0 2 e2 h2 (by omega)
  have s1 : retryGo dl 3 2 1 =
      (RetryOutcome.failed e2, [RetryEv.attempt, RetryEv.sleep 3, RetryEv.attempt]) := by
    have h := retryGo_step_err dl 3 1 1 e1 h1 (by omega)
    rw [h, s2]
  have hloop : retryLoop dl 3 =
      (RetryOutcome.failed e2,
       [RetryEv.attempt, RetryEv.sleep 3, RetryEv.attempt, RetryEv.sleep 3,
        RetryEv.attempt]) := by
    have h := retryGo_step_err dl 3 2 0 e0 h0 (by omega)
    unfold retryLoop
    rw [h, s1]
  refine ⟨hloop, ?_, fun rest => rfl⟩
  simp [processMessage, hm, hdm, hpass, hloop]

/-- Witness for retry_exhaustion: a concrete accepted document whose three
attempts fail with errors A, B, C ends failed with C after the expected
attempt/sleep trace. -/
theorem retry_exhaustion_witness :
    retryLoop (fun n => match n with
      | 0 => DlRes.err "A" | 1 => DlRes.err "B" | _ => DlRes.err "C") 3 =
      (RetryOutcome.failed "C",
       [RetryEv.attempt, RetryEv.sleep 3, RetryEv.attempt, RetryEv.sleep 3,
        RetryEv.attempt]) := by
  have h := retry_exhaustion
    { download_media := true, media_filter := "all", media_max_size := none }
    initialState
    { id := 4, sender := none, date := none, text := "",
      media := some Media.otherMedia }
    (fun n => match n with
      | 0 => DlRes.err "A" | 1 => DlRes.err "B" | _ => DlRes.err "C")
    Media.otherMedia "A" "B" "C"
    rfl rfl rfl rfl rfl rfl
  exact h.1

/-- Claim C10: a message carrying media always gets exactly one media
annotation line, appended after its optional text line, and that line starts
with the same "[<timestamp>] <<sender>> " head the text line has, followed by
the bracketed "[MEDIA: ...]" payload; in particular a media-only message still
produces a line carrying its timestamp and sender. -/
theorem media_line_same_head (cfg : BackupConfig) (st : RunState) (m : Message)
    (dl : Nat → DlRes) (med : Media) (hm : m.media = some med) :
    ∃ payload, (processMessage cfg st m dl).lines =
      (if m.text ≠ "" then
        st.lines ++ [lineHead (m.date.getD "") (senderName m.sender) ++ m.text]
      else st.lines)
      ++ [lineHead (m.date.getD "") (senderName m.sender)
            ++ ("[MEDIA: " ++ (payload ++ "]"))] := by
  cases hdm : cfg.download_media with
  | false =>
    exact ⟨"not downloaded", by simp [processMessage, hm, hdm, mediaLine]⟩
  | true =>
    by_cases hsd : (applyFilters cfg.media_filter cfg.media_max_size
        (get_media_type m) (get_media_size m)).should_download = false
    · refine ⟨pyShowOptStr (applyFilters cfg.media_filter cfg.media_max_size
        (get_media_type m) (get_media_size m)).skip_reason, ?_⟩
      simp [processMessage, hm, hdm, hsd, mediaLine]
    · rcases retryLoop_cases dl with hro | ⟨e, hro⟩
      · refine ⟨deriveFilename m.id med, ?_⟩
        simp [processMessage, hm, hdm, hsd, hro, mediaLine]
      · refine ⟨"Download failed - " ++ e, ?_⟩
        simp [processMessage, hm, hdm, hsd, hro, mediaLine]

/-- Witness for media_line_same_head: a media-only message (empty text) still
yields a line with its timestamp and sender before the media payload. -/
theorem media_line_same_head_witness :
    ∃ payload,
      (processMessage { download_media := true, media_filter := "all", media_max_size := none }
        initialState
        { id := 2, sender := some { username := PyStrAttr.strVal "bob",
                                    first_name := PyStrAttr.absent },
          date := some "2024-01-01 00:00:00", text := "",
          media := some (Media.photo { sizes := none }) }
        (fun _ => DlRes.ok)).lines =
      [lineHead "2024-01-01 00:00:00" "bob" ++ ("[MEDIA: " ++ (payload ++ "]"))] := by
  have h := media_line_same_head
    { download_media := true, media_filter := "all", media_max_size := none }
    initialState
    { id := 2, sender := some { username := PyStrAttr.strVal "bob",
                                first_name := PyStrAttr.absent },
      date := some "2024-01-01 00:00:00", text := "",
      media := some (Media.photo { sizes := none }) }
    (fun _ => DlRes.ok)
    (Media.photo { sizes := none }) rfl
  rcases h with ⟨payload, hp⟩
  exact ⟨payload, by simpa [initialState, senderName, pyOr, getattrD, pyTruthy, pyRender] using hp⟩

/-- With downloads enabled, one message adds exactly its media indicator (1
when media is present, 0 otherwise) to media_count + media_filtered +
media_failed, and leaves media_skipped unchanged. -/
theorem process_sum_dl (cfg : BackupConfig) (st : RunState) (m : Message)
    (dl : Nat → DlRes) (hdm : cfg.download_media = true) :
    (processMessage cfg st m dl).counters.media_count
      + (processMessage cfg st m dl).counters.media_filtered
      + (processMessage cfg st m dl).counters.media_failed
      = st.counters.media_count + st.counters.media_filtered + st.counters.media_failed
        + (if m.media.isSome then 1 else 0)
    ∧ (processMessage cfg st m dl).counters.media_skipped
      = st.counters.media_skipped := by
  cases hm : m.media with
  | none => simp [processMessage, hm]
  | some med =>
    by_cases hsd : (applyFilters cfg.media_filter cfg.media_max_size
        (get_media_type m) (get_media_size m)).should_download = false
    · constructor
      · simp [processMessage, hm, hdm, hsd]
        omega
      · simp [processMessage, hm, hdm, hsd]
    · rcases retryLoop_cases dl with hro | ⟨e, hro⟩
      · constructor
        · simp [processMessage, hm, hdm, hsd, hro]
          omega
        · simp [processMessage, hm, hdm, hsd, hro]
      · constructor
        · simp [processMessage, hm, hdm, hsd, hro]
          omega
        · simp [processMessage, hm, hdm, hsd, hro]

/-- With downloads disabled, one message adds exactly its media indicator to
media_skipped and leaves the three download counters unchanged. -/
theorem process_skip_nodl (cfg : BackupConfig) (st : RunState) (m : Message)
    (dl : Nat → DlRes) (hdm : cfg.download_media = false) :
    (processMessage cfg st m dl).counters.media_skipped
      = st.counters.media_skipped + (if m.media.isSome then 1 else 0)
    ∧ (processMessage cfg st m dl).counters.media_count = st.counters.media_count
    ∧ (processMessage cfg st m dl).counters.media_filtered = st.counters.media_filtered
    ∧ (processMessage cfg st m dl).counters.media_failed = st.counters.media_failed := by
  cases hm : m.media with
  | none => simp [processMessage, hm]
  | some med => simp [processMessage, hm, hdm]

/-- Run invariant with downloads enabled: the three download counters' sum
grows by the number of messages with media; media_skipped stays put. -/
theorem run_sum_dl (cfg : BackupConfig) (hdm : cfg.download_media = true) :
    ∀ msgs st,
      (runMessages cfg st msgs).counters.media_count
        + (runMessages cfg st msgs).counters.media_filtered
        + (runMessages cfg st msgs).counters.media_failed
        = st.counters.media_count + st.counters.media_filtered
          + st.counters.media_failed + mediaCount msgs
      ∧ (runMessages cfg st msgs).counters.media_skipped
        = st.counters.media_skipped := by
  intro msgs
  induction msgs with
  | nil => intro st; simp [runMessages, mediaCount]
  | cons p rest ih =>
    intro st
    obtain ⟨m, dl⟩ := p
    have hstep := process_sum_dl cfg st m dl hdm
    have hr := ih (processMessage cfg st m dl)
    constructor
    · simp only [runMessages, mediaCount]
      rw [hr.1, hstep.1]
      omega
    · simp only [runMessages]
      rw [hr.2, hstep.2]

/-- Run invariant with downloads disabled: media_skipped grows by the number
of messages with media; the three download counters stay put. -/
theorem run_skip_nodl (cfg : BackupConfig) (hdm : cfg.download_media = false) :
    ∀ msgs st,
      (runMessages cfg st msgs).counters.media_skipped
        = st.counters.media_skipped + mediaCount msgs
      ∧ (runMessages cfg st msgs).counters.media_count = st.counters.media_count
      ∧ (runMessages cfg st msgs).counters.media_filtered = st.counters.media_filtered
      ∧ (runMessages cfg st msgs).counters.media_failed = st.counters.media_failed := by
  intro msgs
  induction msgs with
  | nil => intro st; simp [runMessages, mediaCount]
  | cons p rest ih =>
    intro st
    obtain ⟨m, dl⟩ := p
    have hstep := process_skip_nodl cfg st m dl hdm
    have hr := ih (processMessage cfg st m dl)
    refine ⟨?_, ?_, ?_, ?_⟩
    · simp only [runMessages, mediaCount]
      rw [hr.1, hstep.1]
      omega
    · simp only [runMessages]
      rw [hr.2.1, hstep.2.1]
    · simp only [runMessages]
      rw [hr.2.2.1, hstep.2.2.1]
    · simp only [runMessages]
      rw [hr.2.2.2, hstep.2.2.2]

/-- Claim C1: over a whole run from the initial state, with downloads enabled
media_count + media_filtered + media_failed equals the number of processed
messages with a non-null media payload and media_skipped stays 0; with
downloads disabled media_skipped equals that number and the other three stay
0 (so in both cases each message with media lands in exactly one counter and
the four-way sum equals that number). -/
theorem counter_conservation (cfg : BackupConfig)
    (msgs : List (Message × (Nat → DlRes))) :
    (cfg.download_media = true →
      (runMessages cfg initialState msgs).counters.media_count
        + (runMessages cfg initialState msgs).counters.media_filtered
        + (runMessages cfg initialState msgs).counters.media_failed = mediaCount msgs
      ∧ (runMessages cfg initialState msgs).counters.media_skipped = 0)
    ∧ (cfg.download_media = false →
      (runMessages cfg initialState msgs).counters.media_skipped = mediaCount msgs
      ∧ (runMessages cfg initialState msgs).counters.media_count = 0
      ∧ (runMessages cfg initialState msgs).counters.media_filtered = 0
      ∧ (runMessages cfg initialState msgs).counters.media_failed = 0) := by
  constructor
  · intro hdm
    have h := run_sum_dl cfg hdm msgs initialState
    simpa [initialState] using h
  · intro hdm
    have h := run_skip_nodl cfg hdm msgs initialState
    simpa [initialState] using h

/-- Sample configuration with downloads enabled, filter all, max 5,000,000. -/
def sampleCfgDl : BackupConfig :=
  { download_media := true, media_filter := "all", media_max_size := some 5000000 }

/-- Sample three-message stream: text only, a 2,000,000-byte photo, and a
10,000,000-byte video document; all download attempts would succeed. -/
def sampleStream : List (Message × (Nat → DlRes)) :=
  [({ id := 1, sender := none, date := none, text := "hello", media := none },
    fun _ => DlRes.ok),
   ({ id := 2, sender := none, date := none, text := "",
      media := some (Media.photo { sizes := some [{ size := some 2000000 }] }) },
    fun _ => DlRes.ok),
   ({ id := 3, sender := none, date := none, text := "",
      media := some (Media.document
        { mimeType := some "video/mp4", size := some 10000000, attributes := [] }) },
    fun _ => DlRes.ok)]

/-- Witness for counter_conservation: on the sample stream with downloads
enabled the three download counters sum to the number of media messages and
nothing is skipped. -/
theorem counter_conservation_witness :
    ((runMessages sampleCfgDl initialState sampleStream).counters.media_count
      + (runMessages sampleCfgDl initialState sampleStream).counters.media_filtered
      + (runMessages sampleCfgDl initialState sampleStream).counters.media_failed
      = mediaCount sampleStream)
    ∧ (runMessages sampleCfgDl initialState sampleStream).counters.media_skipped = 0 := by
  have h := counter_conservation sampleCfgDl sampleStream
  exact h.1 rfl
